import Mathlib

/-!
Verification of the streaming/buffering core of the wmii-lua ixp binding
(src/ixp/luaixp.c) against its natural-language specification.

The relevant C functions are shallowly embedded below:
  * `setrwx` / `build_modestr`  — the permission-string projection (lines 467-487),
  * the refill dispatch and SIGALRM catcher of the line iterator
    (`l_ixp_iread_iter` lines 350-388, `l_ixp_iread_catcher` lines 303-328),
  * the full line-iterator state machine (`l_ixp_iread_iter` lines 330-410),
  * the reader release paths (`l_ixp_iread_gc` lines 412-426,
    `l_ixp_idir_gc` lines 601-614),
  * the directory iterator (`l_ixp_idir_iter` lines 576-599); its record
    decoder (`ixp_message` / `ixp_pstat`) lives in the external ixp library and
    is modelled from the spec where needed.

Bytes are modelled as `Nat` values (10 = newline, 0 = NUL); C buffers are
`List Nat`; `size_t` arithmetic that can wrap is taken modulo `2 ^ 64`.
-/

/- ----------------------------------------------------------------------
Status record projection: `setrwx` and `build_modestr` (luaixp.c 467-487).
---------------------------------------------------------------------- -/

/-- The 9P directory bit `P9_DMDIR` (value from the protocol, 0x80000000),
tested by `build_modestr` via `stat->mode & P9_DMDIR`. -/
def P9_DMDIR : Nat := 0x80000000

/-- `setrwx(long m, char *s)` (luaixp.c 467-475): copies the 3-character
template `modes[m]` into the buffer.  Both call sites mask the index with
`& 7`, so only indices 0..7 are reachable; the `getD` default is dead. -/
def setrwx (m : Nat) : List Char :=
  (["---", "--x", "-w-",
    "-wx", "r--", "r-x",
    "rw-", "rwx"].getD m "---").data

/-- `build_modestr(char *buf, const struct IxpStat *stat)` (luaixp.c 477-487):
`buf[0]` is `'d'` iff `mode & P9_DMDIR`, `buf[1]` is a fixed `'-'`, then the
three `rwx` templates are written at offsets 2, 5 and 8 from the owner
(`mode >> 6`), group (`mode >> 3`) and other (`mode >> 0`) bit groups, and
`buf[11] = 0` terminates the string, so the result has 11 characters. -/
def build_modestr (mode : Nat) : List Char :=
  (if mode &&& P9_DMDIR ≠ 0 then 'd' else '-') :: '-' ::
    (setrwx ((mode >>> 6) &&& 7) ++ setrwx ((mode >>> 3) &&& 7) ++
     setrwx (mode &&& 7))

theorem setrwx_shape (m : Nat) (h : m ≤ 7) :
    ∃ x y z, setrwx m = [x, y, z] := by
  interval_cases m <;> exact ⟨_, _, _, rfl⟩

/-- C1 (counterexample): for mode bits 0755 with the directory bit set the
projection does *not* produce the 10-character `"drwxr-xr-x"` (it produces
the 11-character `"d-rwxr-xr-x"`); likewise 0644 without the directory bit
does not give `"-rw-r--r--"`. -/
theorem build_modestr_not_ten_chars :
    build_modestr (0x80000000 + 0o755) ≠ "drwxr-xr-x".data ∧
    build_modestr 0o644 ≠ "-rw-r--r--".data ∧
    (build_modestr (0x80000000 + 0o755)).length ≠ 10 := by decide

/-- C1 (amended): the projection yields an 11-character string:
position 0 is `'d'` iff the directory bit is set else `'-'`, position 1 is a
fixed `'-'`, and the three 3-character `rwx` templates occupy positions 2-4,
5-7 and 8-10, selected by the owner, group and other 3-bit groups of the
mode, most-significant group first; for 0755 with the directory bit it
equals `"d-rwxr-xr-x"` and for 0644 without it `"--rw-r--r--"`. -/
theorem build_modestr_spec :
    build_modestr (0x80000000 + 0o755) = "d-rwxr-xr-x".data ∧
    build_modestr 0o644 = "--rw-r--r--".data ∧
    ∀ m : Nat,
      (build_modestr m).length = 11 ∧
      (build_modestr m).take 2 =
        [if m &&& P9_DMDIR ≠ 0 then 'd' else '-', '-'] ∧
      ((build_modestr m).drop 2).take 3 = setrwx ((m >>> 6) &&& 7) ∧
      ((build_modestr m).drop 5).take 3 = setrwx ((m >>> 3) &&& 7) ∧
      (build_modestr m).drop 8 = setrwx (m &&& 7) := by
  refine ⟨by decide, by decide, ?_⟩
  intro m
  obtain ⟨a1, a2, a3, h1⟩ := setrwx_shape ((m >>> 6) &&& 7) Nat.and_le_right
  obtain ⟨b1, b2, b3, h2⟩ := setrwx_shape ((m >>> 3) &&& 7) Nat.and_le_right
  obtain ⟨c1, c2, c3, h3⟩ := setrwx_shape (m &&& 7) Nat.and_le_right
  unfold build_modestr
  rw [h1, h2, h3]
  exact ⟨rfl, rfl, rfl, rfl, rfl⟩

/- ----------------------------------------------------------------------
Line-iterator refill dispatch and SIGALRM catcher (luaixp.c 303-328, 350-388).
---------------------------------------------------------------------- -/

/-- The errno constant `EINTR` (4 on Linux).  `l_ixp_iread_iter` compares the
*byte count* returned by `ixp_read` against this errno value. -/
def EINTR : Int := 4

/-- The three ways the refill part of `l_ixp_iread_iter` can dispatch on the
result of `ixp_read`: push the string `"timeout"`, end the iteration
(return 0 Lua results), or keep `rc` buffered bytes. -/
inductive RefillOutcome where
  | timeout
  | eof
  | data (rc : Int)
deriving DecidableEq, Repr

/-- The dispatch on `rc = ixp_read(...)` in `l_ixp_iread_iter`
(luaixp.c 376-386): `if (rc == EINTR) { push "timeout" }`, then
`if (rc <= 0) return 0 /* we are done */`, else `ctx->buf_len = rc`.
`ixp_read` returns the number of bytes read, 0 at end of file, or a
negative value on failure (including a read interrupted by the alarm). -/
def ireadRefillDispatch (rc : Int) : RefillOutcome :=
  if rc = EINTR then RefillOutcome.timeout
  else if rc ≤ 0 then RefillOutcome.eof
  else RefillOutcome.data rc

/-- `l_ixp_iread_catcher` (luaixp.c 303-328) models: the Lua stack of the
interrupted iterator call holds the caller's arguments, slot 1 = the original
`timeout` argument, slot 2 = the extension callback.  The handler does
`lua_call(L, 0, 1)` — calling the callback on top of the stack and leaving its
result in slot 2 — and then reads `new_timeout = luaL_checknumber(L, 1)`,
i.e. stack slot 1, before `alarm(new_timeout)`.  This function returns the
value the alarm is re-armed with (Lua stack as a list, slot 1 first). -/
def catcherNewAlarm (timeoutArg : Int) (cb : Unit → Int) : Int :=
  let stackAfterCall : List Int := [timeoutArg, cb ()]
  stackAfterCall.getD 0 0

/-- C2 (code bug): a refill whose `ixp_read` is interrupted by the alarm
returns a negative count (-1 with errno EINTR), which the iterator treats as
end-of-iteration instead of returning `"timeout"`; the `"timeout"` result is
instead produced by any successful 4-byte read (`rc == EINTR` compares the
byte count with the errno constant 4); and when the extension callback
returns 5 the catcher re-arms the alarm with the *original* timeout 2 (it
reads Lua stack slot 1, not the callback's result in slot 2). -/
theorem iread_timeout_code_bug :
    ireadRefillDispatch (-1) = RefillOutcome.eof ∧
    ireadRefillDispatch (-1) ≠ RefillOutcome.timeout ∧
    ireadRefillDispatch 4 = RefillOutcome.timeout ∧
    catcherNewAlarm 2 (fun _ => 5) = 2 ∧
    catcherNewAlarm 2 (fun _ => 5) ≠ 5 := by decide

/-- C3 (counterexample): a read that fails with a non-interruption cause
(`rc = -1`) produces exactly the same end-of-iteration outcome as a 0-byte
read — no `Error` result distinct from `Done` is ever surfaced. -/
theorem iread_error_not_distinct :
    ireadRefillDispatch (-1) = RefillOutcome.eof ∧
    ireadRefillDispatch (-1) = ireadRefillDispatch 0 := by decide

/-- C3 (amended): every failed read (negative count) — like every 0-byte
read — makes the iterator end the iteration (`rc <= 0` returns 0 Lua
results); the underlying cause is not surfaced. -/
theorem iread_error_ends_iteration :
    ∀ rc : Int, rc ≤ 0 → ireadRefillDispatch rc = RefillOutcome.eof := by
  intro rc h
  unfold ireadRefillDispatch EINTR
  rw [if_neg (by omega), if_pos h]

/-- Witness for `iread_error_ends_iteration` at the failed read `rc = -7`. -/
theorem iread_error_ends_iteration_witness :
    ireadRefillDispatch (-7) = RefillOutcome.eof :=
  iread_error_ends_iteration (-7) (by decide)

/- ----------------------------------------------------------------------
The line-iterator state machine: `l_ixp_iread_s` and `l_ixp_iread_iter`
(luaixp.c 262-268, 330-410).
---------------------------------------------------------------------- -/

/-- `size_t` values wrap modulo `2 ^ 64`. -/
def SIZE_T_MOD : Nat := 2 ^ 64

/-- `struct l_ixp_iread_s` (luaixp.c 262-268) together with the remote
handle it owns.  The handle `fid` is modelled as the list of byte chunks
successive `ixp_read` calls deliver; once the list is exhausted every
further read returns 0 (remote EOF).  `buf = none` models the not yet
allocated (`NULL`) buffer; `l_ixp_iread` zeroes the whole struct. -/
structure IreadCtx where
  fid : List (List Nat)
  buf : Option (List Nat)
  buf_pos : Nat
  buf_len : Nat
  buf_size : Nat
deriving DecidableEq, Repr

/-- The zeroed context `l_ixp_iread` creates (luaixp.c 281-284), bound to a
handle delivering `chunks`. -/
def ireadInit (chunks : List (List Nat)) : IreadCtx :=
  ⟨chunks, none, 0, 0, 0⟩

/-- `strchr(s, '\n')` over the byte buffer: the first byte equal to 10
(newline) is found, but a 0 byte (NUL, the C string terminator) stops the
scan first; `i` tracks the absolute buffer index of the scan position.
Scanning off the end of the modelled allocation also yields `none`. -/
def strchrNl : List Nat → Nat → Option Nat
  | [], _ => none
  | c :: rest, i =>
    if c = 0 then none
    else if c = 10 then some i
    else strchrNl rest (i + 1)

/-- `lua_pushstring(L, s)` / C string contents at offset `pos`: the bytes up
to (excluding) the first NUL. -/
def cstr (b : List Nat) (pos : Nat) : List Nat :=
  (b.drop pos).takeWhile (· ≠ 0)

/-- `ixp_read(ctx->fid, ctx->buf, ctx->buf_size)` writes the returned bytes
at offset 0 of the buffer; the rest of the allocation keeps its previous
contents.  (The transport contract bounds a read by the requested size, so
`src.length ≤ dst.length` at every call site; the `take` keeps the
allocation's extent fixed.) -/
def memcpy0 (dst src : List Nat) : List Nat :=
  (src ++ dst.drop src.length).take dst.length

/-- One result of the iterator closure: a pushed line, the pushed
`"timeout"` string, or end of iteration (0 Lua results).  `stripped` records
which branch produced the line: `true` for the newline-found branch
(luaixp.c 401-408, delimiter stripped), `false` for the no-newline branch
(luaixp.c 394-399, buffer tail pushed whole); it is the bookkeeping needed
to state the spec's round-trip law. -/
inductive IterResult where
  | line (s : List Nat) (stripped : Bool)
  | timeout
  | done
deriving DecidableEq, Repr

/-- The scan part of `l_ixp_iread_iter` (luaixp.c 390-409), reached with the
allocated buffer `b`.  `s = buf + buf_pos`; if `strchr` finds no newline the
whole C string at `s` is pushed and `buf_len` is cleared (NOTE: `buf_pos` is
left alone and the push follows the C string to its NUL, not `buf_len`
bytes); if a newline is found at absolute index `k`, it is overwritten with
NUL, the C string at `s` is pushed, `buf_pos += (k - buf_pos) + 1` and
`buf_len -= (k - buf_pos) + 1` in `size_t` arithmetic. -/
def ireadScan (ctx : IreadCtx) (b : List Nat) : IterResult × IreadCtx :=
  match strchrNl (b.drop ctx.buf_pos) ctx.buf_pos with
  | none =>
      (IterResult.line (cstr b ctx.buf_pos) false, { ctx with buf_len := 0 })
  | some k =>
      let len := k - ctx.buf_pos + 1
      let b2 := b.set k 0
      (IterResult.line (cstr b2 ctx.buf_pos) true,
       { ctx with
           buf := some b2,
           buf_pos := (ctx.buf_pos + len) % SIZE_T_MOD,
           buf_len := (ctx.buf_len + SIZE_T_MOD - len) % SIZE_T_MOD })

/-- One call of the iterator closure `l_ixp_iread_iter` (luaixp.c 330-410):
allocate the buffer on first use (`malloc(fid->iounit)`; the fresh
allocation's bytes are modelled as 0 — no theorem below reads a byte that
was not previously written); if no unconsumed bytes remain, reset `buf_pos`
and refill from the handle, dispatching on the returned count exactly as the
C does (`rc == EINTR`, i.e. a 4-byte read, pushes `"timeout"` with `buf_len`
still 0; `rc <= 0` ends the iteration); then scan for a newline. -/
def l_ixp_iread_iter (iounit : Nat) (ctx : IreadCtx) :
    IterResult × IreadCtx :=
  let ctx :=
    if ctx.buf.isNone then
      { ctx with buf := some (List.replicate iounit 0),
                 buf_size := iounit, buf_len := 0 }
    else ctx
  let b := ctx.buf.getD []
  if ctx.buf_len = 0 then
    let ctx := { ctx with buf_pos := 0 }
    match ctx.fid with
    | [] => (IterResult.done, ctx)
    | chunk :: rest =>
      let b2 := memcpy0 b chunk
      let ctx := { ctx with fid := rest, buf := some b2 }
      if chunk.length = 4 then (IterResult.timeout, ctx)
      else if chunk.length = 0 then (IterResult.done, ctx)
      else ireadScan { ctx with buf_len := chunk.length } b2
  else
    ireadScan ctx b

/-- Run the iterator up to `fuel` times, stopping after the first
end-of-iteration result (as a Lua `for ... in` loop would stop on `nil`). -/
def ireadRun (iounit : Nat) : Nat → IreadCtx → List IterResult
  | 0, _ => []
  | fuel + 1, ctx =>
    match l_ixp_iread_iter iounit ctx with
    | (IterResult.done, _) => [IterResult.done]
    | (r, ctx2) => r :: ireadRun iounit fuel ctx2

/-- The context after `n` calls of the iterator. -/
def ireadStateAfter (iounit : Nat) : Nat → IreadCtx → IreadCtx
  | 0, ctx => ctx
  | n + 1, ctx => ireadStateAfter iounit n (l_ixp_iread_iter iounit ctx).2

/-- The claim's reassembly of a run: each line, with the stripped newline
delimiter re-appended exactly where one was stripped. -/
def lineBytes : IterResult → List Nat
  | IterResult.line s true => s ++ [10]
  | IterResult.line s false => s
  | _ => []

/-- Concatenation of all lines of a run, delimiters re-appended. -/
def ireadRunConcat (iounit fuel : Nat) (ctx : IreadCtx) : List Nat :=
  ((ireadRun iounit fuel ctx).map lineBytes).flatten

/-- C4 (code bug): with reads `"a\nbb\n"`, `"ccc"`, then EOF (buffer size 8),
the iterator yields `"a"`, `"bb"`, then `"cccb"` — NOT `"ccc"`: the
no-newline branch pushes the C string at `buf`, which runs past the 3 valid
bytes of the second read into the stale byte `'b'` left over from the first
read (the buffer is never NUL-terminated at `buf_len`), before ending the
iteration. -/
theorem iread_run_stale_byte :
    ireadRun 8 10 (ireadInit [[97, 10, 98, 98, 10], [99, 99, 99]]) =
      [IterResult.line [97] true, IterResult.line [98, 98] true,
       IterResult.line [99, 99, 99, 98] false, IterResult.done] ∧
    [99, 99, 99, 98] ≠ [99, 99, 99] := by decide

/-- C6 (code bug): with reads `"ab\n"`, `"c"`, then EOF (buffer size 8 —
no line exceeds one buffer), re-concatenating the yielded lines with their
stripped delimiters gives `"ab\ncb"`, not the original `"ab\nc"`: the stale
byte `'b'` of the first read is appended to the final line, so the
round-trip law fails. -/
theorem iread_roundtrip_fails :
    ireadRunConcat 8 10 (ireadInit [[97, 98, 10], [99]]) =
      [97, 98, 10, 99, 98] ∧
    [[97, 98, 10], [99]].flatten = [97, 98, 10, 99] ∧
    ireadRunConcat 8 10 (ireadInit [[97, 98, 10], [99]]) ≠
      [[97, 98, 10], [99]].flatten := by decide

/-- C9 (code bug): reads `"a\0b\nc"` then `"xy"` (buffer size 8).  The NUL
in the first read shields its newline from `strchr`, so the newline at index
3 survives unconsumed; after the 2-byte refill the scan matches that stale
newline beyond the 2 valid bytes, and `buf_len -= 4` underflows the
`size_t` to `2^64 - 2`.  After two calls `buf_pos + buf_len ≤ buf_size`
fails, so the state invariant is not preserved by every iterator call. -/
theorem iread_invariant_broken :
    (ireadStateAfter 8 2 (ireadInit [[97, 0, 98, 10, 99], [120, 121]])).buf_pos
        = 4 ∧
    (ireadStateAfter 8 2 (ireadInit [[97, 0, 98, 10, 99], [120, 121]])).buf_len
        = 2 ^ 64 - 2 ∧
    (ireadStateAfter 8 2 (ireadInit [[97, 0, 98, 10, 99], [120, 121]])).buf_size
        = 8 ∧
    ¬ ((ireadStateAfter 8 2 (ireadInit [[97, 0, 98, 10, 99], [120, 121]])).buf_pos
         + (ireadStateAfter 8 2 (ireadInit [[97, 0, 98, 10, 99], [120, 121]])).buf_len
       ≤ (ireadStateAfter 8 2 (ireadInit [[97, 0, 98, 10, 99], [120, 121]])).buf_size) := by
  decide

/-- C10 (counterexample): a single read `"a\0b\nc\n"` then EOF.  The claim
says the first call returns `"a"` and advances the consumed offset past the
newline (to index 4), so that the following call would yield `"c"`.  In fact
`strchr` stops at the NUL and reports no newline, the whole buffer is
discarded (`buf_len = 0`, `buf_pos` still 0), and the next call hits EOF:
the run is `"a"` then done, and the offset after one call is 0, not 4. -/
theorem iread_nul_discards_counterexample :
    ireadRun 8 5 (ireadInit [[97, 0, 98, 10, 99, 10]]) =
      [IterResult.line [97] false, IterResult.done] ∧
    (ireadStateAfter 8 1 (ireadInit [[97, 0, 98, 10, 99, 10]])).buf_pos = 0 ∧
    (ireadStateAfter 8 1 (ireadInit [[97, 0, 98, 10, 99, 10]])).buf_pos ≠ 4 := by
  decide

/-- The unconsumed region begins with a (first) NUL byte at index `j`, with
neither a NUL nor a newline anywhere before it: the claim's "contains a NUL
before the next newline delimiter". -/
def nulBeforeNl (region : List Nat) : Prop :=
  ∃ j, j < region.length ∧ region.getD j 1 = 0 ∧
    ∀ i, i < j → region.getD i 0 ≠ 0 ∧ region.getD i 0 ≠ 10

theorem strchrNl_of_nulBeforeNl (region : List Nat) (i : Nat)
    (h : nulBeforeNl region) : strchrNl region i = none := by
  induction region generalizing i with
  | nil => rfl
  | cons c rest ih =>
    obtain ⟨j, hj, hz, hpre⟩ := h
    cases j with
    | zero =>
      simp only [List.getD_cons_zero] at hz
      simp [strchrNl, hz]
    | succ j2 =>
      have hc := hpre 0 (Nat.succ_pos j2)
      simp only [List.getD_cons_zero] at hc
      simp only [strchrNl, if_neg hc.1, if_neg hc.2]
      exact ih (i + 1)
        ⟨j2, by simpa using hj, by simpa using hz,
         fun i2 hi2 => by simpa using hpre (i2 + 1) (by omega)⟩

/-- C10 (amended): whenever the unconsumed region holds a NUL byte before
the next newline, the iterator returns only the bytes preceding that first
NUL — but it does NOT advance the consumed offset past the newline: it takes
the no-newline branch, leaving `buf_pos` unchanged and clearing `buf_len`,
so the newline and every remaining buffered byte are discarded. -/
theorem iread_nul_truncates_and_discards (ctx : IreadCtx) (b : List Nat)
    (iounit : Nat) (hb : ctx.buf = some b) (hlen : ctx.buf_len ≠ 0)
    (hnul : nulBeforeNl (b.drop ctx.buf_pos)) :
    l_ixp_iread_iter iounit ctx =
      (IterResult.line ((b.drop ctx.buf_pos).takeWhile (· ≠ 0)) false,
       { ctx with buf_len := 0 }) := by
  obtain ⟨fid, obuf, pos, len, size⟩ := ctx
  dsimp only at hb hlen hnul ⊢
  subst hb
  have hscan := strchrNl_of_nulBeforeNl (b.drop pos) pos hnul
  unfold l_ixp_iread_iter
  simp only [Option.isNone_some, Bool.false_eq_true, if_false, Option.getD_some,
    if_neg hlen]
  unfold ireadScan
  dsimp only
  rw [hscan]
  rfl

/-- Witness for `iread_nul_truncates_and_discards` on the concrete state
with buffer `"a\0b\n"` fully unconsumed. -/
theorem iread_nul_truncates_and_discards_witness :
    l_ixp_iread_iter 4 ⟨[], some [97, 0, 98, 10], 0, 4, 4⟩ =
      (IterResult.line [97] false, ⟨[], some [97, 0, 98, 10], 0, 0, 4⟩) := by
  have h := iread_nul_truncates_and_discards ⟨[], some [97, 0, 98, 10], 0, 4, 4⟩
    [97, 0, 98, 10] 4 rfl (by decide)
    ⟨1, by decide, by decide, fun i hi => by interval_cases i; decide⟩
  simpa using h

/- ----------------------------------------------------------------------
Reader release paths: `l_ixp_iread_gc` (luaixp.c 412-426) and
`l_ixp_idir_gc` (luaixp.c 601-614).
---------------------------------------------------------------------- -/

/-- The `fid` field of a reader at release time: `null` (open failed, or
explicitly nulled by `l_ixp_idir` after a failed malloc), `valid` (open
handle), or `dangling` (already passed to `ixp_close`, which clunks and
frees it; the field is never nulled afterwards). -/
inductive FidSt where
  | null
  | valid
  | dangling
deriving DecidableEq, Repr

/-- The `buf` field of a reader at release time: `null` (never allocated),
`alloc` (live allocation), or `freed` (already passed to `free`). -/
inductive BufSt where
  | null
  | alloc
  | freed
deriving DecidableEq, Repr

/-- The resource components of `struct l_ixp_iread_s` / `struct
l_ixp_idir_s` that the release paths touch. -/
structure ReaderRes where
  fid : FidSt
  buf : BufSt
deriving DecidableEq, Repr

/-- External collaborator `ixp_close(fid)`: begins by dereferencing
`fid->client`, so a NULL fid is a crash and a dangling fid is a use after
free (`none` = undefined behavior); a valid fid is clunked and freed. -/
def ixpClose : FidSt → Option FidSt
  | FidSt.valid => some FidSt.dangling
  | FidSt.null => none
  | FidSt.dangling => none

/-- C `free(p)`: `free(NULL)` is a no-op; freeing a live allocation
releases it; freeing an already-freed pointer is undefined behavior. -/
def cFree : BufSt → Option BufSt
  | BufSt.null => some BufSt.null
  | BufSt.alloc => some BufSt.freed
  | BufSt.freed => none

/-- `l_ixp_iread_gc` (luaixp.c 412-426): `ixp_close(ctx->fid)`
unconditionally, then `if (ctx->buf) free(ctx->buf)` — the free is guarded
by pointer non-NULLness only.  `none` = the release crashed / hit undefined
behavior. -/
def l_ixp_iread_gc (s : ReaderRes) : Option ReaderRes := do
  let f ← ixpClose s.fid
  let b ← if s.buf = BufSt.null then some s.buf else cFree s.buf
  pure ⟨f, b⟩

/-- `l_ixp_idir_gc` (luaixp.c 601-614): `free(ctx->buf)` unconditionally,
then `ixp_close(ctx->fid)` unconditionally. -/
def l_ixp_idir_gc (s : ReaderRes) : Option ReaderRes := do
  let b ← cFree s.buf
  let f ← ixpClose s.fid
  pure ⟨f, b⟩

/-- C7 (code bug): releasing a reader whose handle failed to open
(`fid == NULL`, `buf == NULL` — exactly the state `l_ixp_iread` leaves on a
failed `ixp_open`, and the state `l_ixp_idir` leaves after a failed malloc)
crashes in both gc routines, because `ixp_close(NULL)` dereferences the
NULL fid; and a second release of a healthy reader double-releases both
resources (neither field is nulled by the first release).  Only the first
release of a healthy reader is clean. -/
theorem reader_gc_not_defensive :
    l_ixp_iread_gc ⟨FidSt.null, BufSt.null⟩ = none ∧
    l_ixp_idir_gc ⟨FidSt.null, BufSt.null⟩ = none ∧
    l_ixp_iread_gc ⟨FidSt.valid, BufSt.alloc⟩ =
      some ⟨FidSt.dangling, BufSt.freed⟩ ∧
    (l_ixp_iread_gc ⟨FidSt.valid, BufSt.alloc⟩ >>= l_ixp_iread_gc) = none ∧
    (l_ixp_idir_gc ⟨FidSt.valid, BufSt.alloc⟩ >>= l_ixp_idir_gc) = none := by
  decide

/- ----------------------------------------------------------------------
Directory iterator: `l_ixp_idir_s` and `l_ixp_idir_iter`
(luaixp.c 530-534, 576-599).
---------------------------------------------------------------------- -/

/-- A decoded file-status record as the iterator sees it: the declared
size-prefix value and the payload bytes that were actually available. -/
structure StatRec where
  sz : Nat
  payload : List Nat
deriving DecidableEq, Repr

/-- Modelled from the spec: the record decoder (`ixp_message` /
`ixp_pstat` of the external ixp library) is not part of src/.  Per §4.1 and
§6 of the spec it decodes one length-prefixed file-status record at the
cursor of the decoding context; the consumed interface
(`unpackNextStatus(buffer, length) -> decoding context with advancing
cursor`, and the `void`-returning `ixp_pstat` call in src/) offers no error
channel, so the cursor always advances by the record's declared extent
(2-byte little-endian size prefix + `sz` payload bytes) and a record whose
declared length runs past `end` simply yields the bytes that are available,
truncated at `end`. -/
def ixp_pstat (b : List Nat) (pos endv : Nat) : StatRec × Nat :=
  let sz := b.getD pos 0 + 256 * b.getD (pos + 1) 0
  (⟨sz, ((b.take endv).drop (pos + 2)).take sz⟩, pos + 2 + sz)

/-- `struct l_ixp_idir_s` (luaixp.c 530-534) with its handle: `fid` is the
list of `ixp_read` results still to come (`some chunk` = successful read of
`chunk`, `none` = failed read with `rc < 0`; an exhausted list reads 0);
`buf` is the `iounit`-sized allocation; `m_pos`/`m_end` are the `IxpMsg`
decode cursor and end. -/
structure IdirCtx where
  fid : List (Option (List Nat))
  buf : List Nat
  m_pos : Nat
  m_end : Nat
deriving DecidableEq, Repr

/-- The context `l_ixp_idir` creates (luaixp.c 547-566): zeroed `IxpMsg`
(`pos = end = 0`) and a fresh `malloc(iounit)` buffer (fresh bytes modelled
as 0; no theorem below reads a byte that was not previously written). -/
def idirInit (iounit : Nat) (fid : List (Option (List Nat))) : IdirCtx :=
  ⟨fid, List.replicate iounit 0, 0, 0⟩

/-- One result of `l_ixp_idir_iter`: a pushed status record or end of
iteration (0 Lua results).  These are the only two exits of the C function
(luaixp.c 576-599). -/
inductive IdirResult where
  | stat (r : StatRec)
  | done
deriving DecidableEq, Repr

/-- The decode step of `l_ixp_idir_iter` (luaixp.c 596-598):
`ixp_pstat(&ctx->m, &stat)` advances the cursor and the record is pushed via
`pushstat`. -/
def idirDecode (ctx : IdirCtx) : IdirResult × IdirCtx :=
  let d := ixp_pstat ctx.buf ctx.m_pos ctx.m_end
  (IdirResult.stat d.1, { ctx with m_pos := d.2 })

/-- One call of `l_ixp_idir_iter` (luaixp.c 576-599): if the cursor has
reached the end, refill — a read with `rc <= 0` (failed or 0 bytes) returns
0 Lua results; otherwise `ctx->m = ixp_message(ctx->buf, rc, MsgUnpack)`
establishes the decode context over exactly the `rc` bytes read
(`pos = 0`, `end = rc`), and a still-exhausted context returns 0 results
(unreachable when `rc > 0`, kept from the source); then one record is
decoded at the cursor. -/
def l_ixp_idir_iter (ctx : IdirCtx) : IdirResult × IdirCtx :=
  if ctx.m_pos ≥ ctx.m_end then
    match ctx.fid with
    | [] => (IdirResult.done, ctx)
    | none :: rest => (IdirResult.done, { ctx with fid := rest })
    | some chunk :: rest =>
      if chunk.length = 0 then (IdirResult.done, { ctx with fid := rest })
      else
        let ctx2 : IdirCtx := ⟨rest, memcpy0 ctx.buf chunk, 0, chunk.length⟩
        if ctx2.m_pos ≥ ctx2.m_end then (IdirResult.done, ctx2)
        else idirDecode ctx2
  else idirDecode ctx

/-- Run the directory iterator up to `fuel` times, stopping after the first
end-of-iteration result. -/
def idirRun : Nat → IdirCtx → List IdirResult
  | 0, _ => []
  | fuel + 1, ctx =>
    match l_ixp_idir_iter ctx with
    | (IdirResult.done, _) => [IdirResult.done]
    | (r, ctx2) => r :: idirRun fuel ctx2

/-- The context after `n` calls of the directory iterator. -/
def idirStateAfter : Nat → IdirCtx → IdirCtx
  | 0, ctx => ctx
  | n + 1, ctx => idirStateAfter n (l_ixp_idir_iter ctx).2

/-- C5 (counterexample): a refill delivering `[100, 0, 1, 2, 3]` — a record
declaring 100 payload bytes when only 5 bytes were read — does not make the
iterator fail: the first call returns an ordinary decoded record (with the
available bytes truncated) and the next call ends the iteration normally.
No `MalformedRecord` signal exists among the iterator's outcomes. -/
theorem idir_malformed_no_error :
    (l_ixp_idir_iter (idirInit 8 [some [100, 0, 1, 2, 3]])).1 =
      IdirResult.stat ⟨100, [1, 2, 3]⟩ ∧
    idirRun 5 (idirInit 8 [some [100, 0, 1, 2, 3]]) =
      [IdirResult.stat ⟨100, [1, 2, 3]⟩, IdirResult.done] := by decide

/-- C5 (amended): the directory iterator performs no framing validation:
its only possible signals are one decoded record or end-of-iteration — it
has no error outcome at all.  On a refill whose record declares a length
exceeding the bytes actually read, one record (truncated to the available
bytes) is still returned, the decode cursor simply overshoots `m_end`
(102 > 5 in the concrete run), and the following call refills or ends
normally. -/
theorem idir_no_malformed_signal :
    (∀ ctx : IdirCtx,
        (l_ixp_idir_iter ctx).1 = IdirResult.done ∨
        ∃ r, (l_ixp_idir_iter ctx).1 = IdirResult.stat r) ∧
    (idirStateAfter 1 (idirInit 8 [some [100, 0, 1, 2, 3]])).m_pos = 102 ∧
    (idirStateAfter 1 (idirInit 8 [some [100, 0, 1, 2, 3]])).m_end = 5 ∧
    idirRun 5 (idirInit 8 [some [100, 0, 1, 2, 3]]) =
      [IdirResult.stat ⟨100, [1, 2, 3]⟩, IdirResult.done] := by
  refine ⟨?_, by decide, by decide, by decide⟩
  intro ctx
  unfold l_ixp_idir_iter idirDecode
  split
  · split
    · exact Or.inl rfl
    · exact Or.inl rfl
    · split
      · exact Or.inl rfl
      · dsimp only
        split
        · exact Or.inl rfl
        · exact Or.inr ⟨_, rfl⟩
  · exact Or.inr ⟨_, rfl⟩

/-- C8 (confirmed): one call of the directory iterator behaves as the claim
says — with the cursor at or past the end, an exhausted handle (0-byte
read) or a failed read yields end-of-iteration; a successful refill of a
nonempty chunk establishes the decode context over exactly the bytes
returned (`m_end` = chunk length) and returns one decoded record with the
cursor advanced; with the cursor strictly before the end one record is
decoded and the cursor advanced with no refill; and the concrete stream of
one valid record (`[3, 0, 9, 8, 7]`, declared size 3 = 5 bytes total)
followed by a 0-byte read yields exactly one record then
end-of-iteration. -/
theorem idir_iter_spec :
    (∀ ctx : IdirCtx, ctx.m_pos ≥ ctx.m_end → ctx.fid = [] →
        l_ixp_idir_iter ctx = (IdirResult.done, ctx)) ∧
    (∀ (ctx : IdirCtx) rest, ctx.m_pos ≥ ctx.m_end →
        ctx.fid = none :: rest →
        l_ixp_idir_iter ctx = (IdirResult.done, { ctx with fid := rest })) ∧
    (∀ (ctx : IdirCtx) chunk rest, ctx.m_pos ≥ ctx.m_end →
        ctx.fid = some chunk :: rest → chunk ≠ [] →
        (l_ixp_idir_iter ctx).2.m_end = chunk.length ∧
        (l_ixp_idir_iter ctx).1 =
          IdirResult.stat (ixp_pstat (memcpy0 ctx.buf chunk) 0 chunk.length).1 ∧
        (l_ixp_idir_iter ctx).2.m_pos =
          (ixp_pstat (memcpy0 ctx.buf chunk) 0 chunk.length).2) ∧
    (∀ ctx : IdirCtx, ctx.m_pos < ctx.m_end →
        l_ixp_idir_iter ctx =
          (IdirResult.stat (ixp_pstat ctx.buf ctx.m_pos ctx.m_end).1,
           { ctx with m_pos := (ixp_pstat ctx.buf ctx.m_pos ctx.m_end).2 })) ∧
    idirRun 5 (idirInit 8 [some [3, 0, 9, 8, 7]]) =
      [IdirResult.stat ⟨3, [9, 8, 7]⟩, IdirResult.done] := by
  refine ⟨?_, ?_, ?_, ?_, by decide⟩
  · intro ctx h1 h2
    simp only [l_ixp_idir_iter, if_pos h1, h2]
  · intro ctx rest h1 h2
    simp only [l_ixp_idir_iter, if_pos h1, h2]
  · intro ctx chunk rest h1 h2 h3
    have hlen : chunk.length ≠ 0 := fun h => h3 (List.length_eq_zero.mp h)
    simp only [l_ixp_idir_iter, if_pos h1, h2, if_neg hlen, idirDecode]
    rw [if_neg (by omega)]
    exact ⟨rfl, rfl, rfl⟩
  · intro ctx h1
    simp only [l_ixp_idir_iter, if_neg (by omega : ¬ ctx.m_pos ≥ ctx.m_end),
      idirDecode]

/-- Witness for `idir_iter_spec`: the exhausted-handle case at the freshly
opened context, and the fresh-refill case on the one-record stream. -/
theorem idir_iter_spec_witness :
    l_ixp_idir_iter (idirInit 8 []) = (IdirResult.done, idirInit 8 []) ∧
    (l_ixp_idir_iter (idirInit 8 [some [3, 0, 9, 8, 7]])).2.m_end = 5 :=
  ⟨idir_iter_spec.1 (idirInit 8 []) (by decide) rfl,
   by
    have h := (idir_iter_spec.2.2.1 (idirInit 8 [some [3, 0, 9, 8, 7]])
      [3, 0, 9, 8, 7] [] (by decide) rfl (by decide)).1
    simpa using h⟩
